import Mathlib

/-
Verification of the natural-language specification of the continual-sync
repository against a shallow embedding of its C sources.  Every definition
below is translated from the named function in src/ (file and line numbers
are given in the doc comments); file and directory nodes are identified by
numeric identities standing for the C pointer identities.
-/

namespace ContinualSync

/-- Entry of the watcher's change queue (struct ds_change_queue_s,
src/watch.c lines 130-134): a scheduled time plus at most one of a file
target or a directory target.  An entry with both targets cleared is a
tombstone. -/
structure ChangeEntry where
  when : Int
  file : Option Nat
  dir : Option Nat
  deriving DecidableEq, Repr

/-- Default entry used for out-of-range array reads in the model. -/
def emptyEntry : ChangeEntry := ⟨0, none, none⟩

/-- Clear the file field of every queue entry targeting the given file node
(ds_change_queue_file_remove, src/watch.c lines 379-398). -/
def cq_file_remove (q : Array ChangeEntry) (f : Nat) : Array ChangeEntry :=
  q.map fun e => if e.file = some f then { e with file := none } else e

/-- Clear the dir field of every queue entry targeting the given directory
node (ds_change_queue_dir_remove, src/watch.c lines 419-433). -/
def cq_dir_remove (q : Array ChangeEntry) (d : Nat) : Array ChangeEntry :=
  q.map fun e => if e.dir = some d then { e with dir := none } else e

/-- Append an entry to the change queue unless some entry already carries
the same file target or the same directory target
(_ds_change_queue_add, src/watch.c lines 296-353). -/
def ds_change_queue_add (q : Array ChangeEntry) (whenTime : Int)
    (file dir : Option Nat) : Array ChangeEntry :=
  if file = none ∧ dir = none then q
  else if q.toList.any
      (fun e => (file.isSome && e.file == file) || (dir.isSome && e.dir == dir)) then q
  else q.push ⟨whenTime, file, dir⟩

/-- Environment of one change-queue processing pass
(ds_change_queue_process, src/watch.c lines 1156-1229).  The C loop calls
time() each iteration; the model takes a single now.  fileCheck gives the
ds_file_checkchanged result for a due file entry; scanFileRemoves and
scanDirRemoves give the node identities that the triggered ds_dir_scan
removes via ds_file_remove and ds_dir_remove, whose only effect on the
queue is the tombstoning done by cq_file_remove and cq_dir_remove
(ds_dir_scan never appends to the queue).  The changed-paths marking done
by the file branch touches only the changed-paths array, modeled
separately by mark_path_changed below; it does not touch the queue. -/
structure CqEnv where
  now : Int
  workUntil : Int
  fileCheck : Nat → Int
  scanFileRemoves : Nat → List Nat
  scanDirRemoves : Nat → List Nat

/-- State threaded through the processing loop of ds_change_queue_process:
the queue array (whose length stays the old length during the pass, as in
the C) and the compaction write index. -/
structure CqPassState where
  q : Array ChangeEntry
  writeidx : Nat

/-- Body of the loop of ds_change_queue_process for one read index
(src/watch.c lines 1169-1223), translated statement by statement:
tombstones are skipped; an entry that is not yet due, or met once now is
past workUntil, is preserved -- via the source's compaction step, which
increments writeidx once inside the copy branch and once unconditionally;
a due file entry clears its slot, runs the file check and on a negative
result removes the file; a due directory entry clears its slot and scans
the directory. -/
def cq_process_entry (env : CqEnv) (st : CqPassState) (readidx : Nat) :
    CqPassState :=
  let entry := st.q.getD readidx emptyEntry
  if entry.file = none ∧ entry.dir = none then st
  else if entry.when > env.now ∨ env.now ≥ env.workUntil then
    let st1 : CqPassState :=
      if readidx ≠ st.writeidx then
        { q := st.q.setD st.writeidx entry, writeidx := st.writeidx + 1 }
      else st
    { st1 with writeidx := st1.writeidx + 1 }
  else
    match entry.file with
    | some f =>
        let q1 := st.q.setD readidx { entry with file := none }
        let q2 := if env.fileCheck f < 0 then cq_file_remove q1 f else q1
        { st with q := q2 }
    | none =>
        match entry.dir with
        | some d =>
            let q1 := st.q.setD readidx { entry with dir := none }
            let q2 := (env.scanFileRemoves d).foldl cq_file_remove q1
            let q3 := (env.scanDirRemoves d).foldl cq_dir_remove q2
            { st with q := q3 }
        | none => st

/-- One full pass of ds_change_queue_process (src/watch.c lines 1156-1229):
walk every index of the queue, then truncate the queue to the final write
index, exactly as the C sets change_queue_length to writeidx. -/
def ds_change_queue_process (env : CqEnv) (q : Array ChangeEntry) :
    Array ChangeEntry :=
  if q.size = 0 then q
  else
    let fin := (List.range q.size).foldl (cq_process_entry env)
      (⟨q, 0⟩ : CqPassState)
    fin.q.extract 0 fin.writeidx

/-- Claim C1 (code_bug): the claim states that after one processing pass
the queue holds exactly the not-yet-due entries, so a queue holding one
tombstone and one not-yet-due entry must end with length 1.  The source's
compaction step increments the write index twice whenever an entry is
copied down (src/watch.c lines 1184-1192), so the pass below, run at
now = 0 with workUntil = 100 on the queue [tombstone, entry due at 10],
ends with length 2: the single surviving entry is duplicated into a stale
slot instead of being compacted. -/
theorem change_queue_process_double_increment_c1 :
    ds_change_queue_process
        ⟨0, 100, fun _ => 0, fun _ => [], fun _ => []⟩
        #[⟨5, none, none⟩, ⟨10, some 1, none⟩]
      = #[⟨10, some 1, none⟩, ⟨10, some 1, none⟩] ∧
    (ds_change_queue_process
        ⟨0, 100, fun _ => 0, fun _ => [], fun _ => []⟩
        #[⟨5, none, none⟩, ⟨10, some 1, none⟩]).size ≠ 1 := by
  constructor
  · rfl
  · decide

/-- Claim C2 (code_bug): the claim states that the change queue never holds
two active entries for the same node and that processing preserves this.
Processing the queue [tombstone, active file entry for node 7 due at 9] at
now = 1 with workUntil = 50 leaves two active entries targeting node 7,
because the buggy double increment of the write index (src/watch.c lines
1184-1192) keeps both the copied entry and its stale original. -/
theorem change_queue_duplicate_active_c2 :
    (ds_change_queue_process
        ⟨1, 50, fun _ => 0, fun _ => [], fun _ => []⟩
        #[⟨3, none, none⟩, ⟨9, some 7, none⟩]).toList.countP
      (fun e => e.file == some 7) = 2 := by
  rfl

/-- Result of an lstat observation of a path, as far as the watcher reads
it: whether the entry is a regular file, and its st_mtime and st_size. -/
structure StatInfo where
  isReg : Bool
  mtime : Int
  size : Int
  deriving DecidableEq, Repr

/-- File node of the watcher's in-memory tree (struct ds_file_s,
src/watch.c lines 69-77): identity (standing for the C pointer), leafname,
tree-relative path, stored mtime and size, and the seen-in-rescan flag. -/
structure FileNode where
  id : Nat
  leaf : String
  path : String
  mtime : Int
  size : Int
  seen : Bool
  deriving DecidableEq, Repr

/-- Check a file's mtime and size against a fresh lstat observation
(ds_file_checkchanged, src/watch.c lines 598-623).  Returns -1 when lstat
fails (modeled as none) or the entry is not a regular file, 0 when both
stored values match, and otherwise overwrites the stored values with the
observed ones and returns 1.  The updated node is returned alongside. -/
def ds_file_checkchanged (file : FileNode) (sb : Option StatInfo) :
    Int × FileNode :=
  match sb with
  | none => (-1, file)
  | some s =>
    if s.isReg = false then (-1, file)
    else if s.mtime = file.mtime ∧ s.size = file.size then (0, file)
    else (1, { file with mtime := s.mtime, size := s.size })

/-- Remove-unseen phase of ds_dir_scan (src/watch.c lines 1098-1107): every
file not seen during the rescan of the directory listing is removed; the
read-and-backtrack loop of the C amounts to a filter. -/
def scan_remove_unseen (files : List FileNode) : List FileNode :=
  files.filter fun f => f.seen

/-- Check-files phase of ds_dir_scan (src/watch.c lines 1109-1120): every
remaining file is re-checked with ds_file_checkchanged against the current
observation of its leafname, and removed when the result is negative.  The
loop body does nothing else: in particular ds_dir_scan (src/watch.c lines
980-1149) contains no call to mark_path_changed, so a positive check
result only updates the stored values. -/
def scan_check_files (fsStat : String → Option StatInfo) :
    List FileNode → List FileNode
  | [] => []
  | f :: rest =>
    let r := ds_file_checkchanged f (fsStat f.leaf)
    if r.1 < 0 then scan_check_files fsStat rest
    else r.2 :: scan_check_files fsStat rest

/-- File-handling phases of ds_dir_scan over one directory, together with
the changed-paths set the claim asks about: remove unseen files, then
re-check the rest.  The changed-paths set is returned unchanged because
ds_dir_scan never writes to it (no mark_path_changed call anywhere in
src/watch.c lines 980-1149). -/
def ds_dir_scan_filephase (fsStat : String → Option StatInfo)
    (files : List FileNode) (changedPaths : List String) :
    List FileNode × List String :=
  (scan_check_files fsStat (scan_remove_unseen files), changedPaths)

/-- Helper for claim C3: every file surviving the check phase was observed
as a regular file and carries exactly the observed mtime and size. -/
theorem scan_check_files_mem (fsStat : String → Option StatInfo) :
    ∀ (l : List FileNode) (f : FileNode), f ∈ scan_check_files fsStat l →
      ∃ s, fsStat f.leaf = some s ∧ s.isReg = true ∧
        f.mtime = s.mtime ∧ f.size = s.size := by
  intro l
  induction l with
  | nil => intro f hf; simp [scan_check_files] at hf
  | cons g rest ih =>
    intro f hf
    unfold scan_check_files at hf
    rcases hs : fsStat g.leaf with _ | s
    · simp [ds_file_checkchanged, hs] at hf
      exact ih f hf
    · by_cases hreg : s.isReg = false
      · simp [ds_file_checkchanged, hs, hreg] at hf
        exact ih f hf
      · by_cases heq : s.mtime = g.mtime ∧ s.size = g.size
        · simp [ds_file_checkchanged, hs, hreg, heq] at hf
          rcases hf with hf | hf
          · subst hf
            exact ⟨s, hs, by simpa using hreg, heq.1.symm, heq.2.symm⟩
          · exact ih f hf
        · simp [ds_file_checkchanged, hs, hreg, heq] at hf
          rcases hf with hf | hf
          · subst hf
            exact ⟨s, hs, by simpa using hreg, rfl, rfl⟩
          · exact ih f hf

/-- Claim C3, counterexample: a directory holding one surviving file with
stored values (0, 0), observed as a regular file with (mtime, size) =
(5, 5), is scanned.  The stored values are updated, but the changed-paths
set stays empty, whereas the claim states the file's path is emitted to
it. -/
theorem scan_no_emission_counterexample_c3 :
    ds_dir_scan_filephase
        (fun n => if n = "a" then some ⟨true, 5, 5⟩ else none)
        [⟨0, "a", "a", 0, 0, true⟩] []
      = ([⟨0, "a", "a", 5, 5, true⟩], []) ∧
    "a" ∉ (ds_dir_scan_filephase
        (fun n => if n = "a" then some ⟨true, 5, 5⟩ else none)
        [⟨0, "a", "a", 0, 0, true⟩] []).2 := by
  constructor
  · rfl
  · decide

/-- Claim C3 as amended: during the file phases of ds_dir_scan, every
surviving child FileNode whose observed (mtime, size) differed has its
stored values updated -- every survivor ends with stored values equal to
the observation of a regular file -- and any file whose lstat fails or
which is no longer a regular file is removed; but no path is emitted: the
changed-paths set is unchanged by the scan. -/
theorem scan_filephase_amended_c3 (fsStat : String → Option StatInfo)
    (files : List FileNode) (cp : List String) (f : FileNode)
    (hf : f ∈ (ds_dir_scan_filephase fsStat files cp).1) :
    (ds_dir_scan_filephase fsStat files cp).2 = cp ∧
    ∃ s, fsStat f.leaf = some s ∧ s.isReg = true ∧
      f.mtime = s.mtime ∧ f.size = s.size := by
  refine ⟨rfl, ?_⟩
  exact scan_check_files_mem fsStat (scan_remove_unseen files) f hf

/-- Witness for claim C3's amended theorem at a concrete directory. -/
theorem scan_filephase_amended_c3_witness :
    (⟨0, "a", "a", 5, 5, true⟩ : FileNode) ∈
      (ds_dir_scan_filephase
        (fun n => if n = "a" then some ⟨true, 5, 5⟩ else none)
        [⟨0, "a", "a", 0, 0, true⟩] ["x"]).1 ∧
    ((ds_dir_scan_filephase
        (fun n => if n = "a" then some ⟨true, 5, 5⟩ else none)
        [⟨0, "a", "a", 0, 0, true⟩] ["x"]).2 = ["x"] ∧
      ∃ s, (fun n => if n = "a" then some (⟨true, 5, 5⟩ : StatInfo) else none)
          (⟨0, "a", "a", 5, 5, true⟩ : FileNode).leaf = some s ∧
        s.isReg = true ∧
        (⟨0, "a", "a", 5, 5, true⟩ : FileNode).mtime = s.mtime ∧
        (⟨0, "a", "a", 5, 5, true⟩ : FileNode).size = s.size) :=
  ⟨by decide,
    scan_filephase_amended_c3
      (fun n => if n = "a" then some ⟨true, 5, 5⟩ else none)
      [⟨0, "a", "a", 0, 0, true⟩] ["x"] ⟨0, "a", "a", 5, 5, true⟩ (by decide)⟩

/-- Claim C10: whenever ds_file_checkchanged reports a change, it also
overwrites the node's stored (mtime, size) with the observed values, and
an immediately repeated check against the same observation reports no
change -- so each modification is reported at most once, to whichever
caller checks first, even one that discards the result. -/
theorem checkchanged_at_most_once_c10 (f : FileNode) (sb : StatInfo)
    (h : (ds_file_checkchanged f (some sb)).1 = 1) :
    (ds_file_checkchanged f (some sb)).2.mtime = sb.mtime ∧
    (ds_file_checkchanged f (some sb)).2.size = sb.size ∧
    ds_file_checkchanged (ds_file_checkchanged f (some sb)).2 (some sb)
      = (0, (ds_file_checkchanged f (some sb)).2) := by
  unfold ds_file_checkchanged at h ⊢
  by_cases hreg : sb.isReg = false
  · simp [hreg] at h
  · by_cases heq : sb.mtime = f.mtime ∧ sb.size = f.size
    · simp [hreg, heq] at h
    · simp [hreg, heq]

/-- Witness for claim C10 at a concrete file and observation. -/
theorem checkchanged_at_most_once_c10_witness :
    (ds_file_checkchanged ⟨0, "a", "a", 0, 0, false⟩
        (some ⟨true, 5, 7⟩)).1 = 1 ∧
    ((ds_file_checkchanged ⟨0, "a", "a", 0, 0, false⟩
        (some ⟨true, 5, 7⟩)).2.mtime = (5 : Int) ∧
      (ds_file_checkchanged ⟨0, "a", "a", 0, 0, false⟩
        (some ⟨true, 5, 7⟩)).2.size = (7 : Int) ∧
      ds_file_checkchanged
          (ds_file_checkchanged ⟨0, "a", "a", 0, 0, false⟩
            (some ⟨true, 5, 7⟩)).2 (some ⟨true, 5, 7⟩)
        = (0, (ds_file_checkchanged ⟨0, "a", "a", 0, 0, false⟩
            (some ⟨true, 5, 7⟩)).2)) :=
  ⟨by decide,
    checkchanged_at_most_once_c10 ⟨0, "a", "a", 0, 0, false⟩ ⟨true, 5, 7⟩
      (by decide)⟩

/-- Shell glob matcher standing in for the C library's fnmatch with flags 0
as called by ds_filename_valid (src/watch.c line 942): a star matches any
run of characters, a question mark matches any single character, a
backslash escapes the following pattern character, and every other
pattern character matches itself.  Bracket expressions of fnmatch are not
modeled; no claim depends on them, and the matcher appears on both sides
of every statement that mentions it. -/
def globMatch : List Char → List Char → Bool
  | [], [] => true
  | [], _ :: _ => false
  | '*' :: ps, s =>
      globMatch ps s ||
        (match s with
         | [] => false
         | _ :: s2 => globMatch ('*' :: ps) s2)
  | '?' :: ps, s =>
      match s with
      | [] => false
      | _ :: s2 => globMatch ps s2
  | '\\' :: pc :: ps, s =>
      match s with
      | [] => false
      | c :: s2 => pc == c && globMatch ps s2
  | pc :: ps, s =>
      match s with
      | [] => false
      | c :: s2 => pc == c && globMatch ps s2
  termination_by p s => (p.length, s.length)

/-- Glob match on strings, the form in which ds_filename_valid calls the
matcher. -/
def fnmatch (pat name : String) : Bool :=
  globMatch pat.data name.data

/-- Filename filter (ds_filename_valid, src/watch.c lines 924-959).
Returns true when the name should be included.  The empty name, "." and
".." are always excluded; with a non-empty exclude list, names matching
any pattern are excluded; with an empty exclude list, names whose last
character is a tilde, and names of more than four characters whose last
four characters are ".tmp", are excluded. -/
def ds_filename_valid (excludes : List String) (leafname : String) : Bool :=
  if leafname.data = [] then false
  else if leafname.data = ['.'] then false
  else if leafname.data = ['.', '.'] then false
  else if 0 < excludes.length then
    !(excludes.any fun pat => fnmatch pat leafname)
  else if leafname.data.getLast? = some '~' then false
  else if 4 < leafname.data.length ∧
      leafname.data.drop (leafname.data.length - 4) = ['.', 't', 'm', 'p']
    then false
  else true

/-- Specification-side restatement of the amended filename-filter claim:
the filter rejects exactly the empty name, "." and ".."; then, with a
non-empty exclude list, the names matching some pattern; otherwise the
names ending in a tilde and the names of length at least five ending in
".tmp". -/
def filename_rejected_spec (excludes : List String) (leafname : String) :
    Bool :=
  decide (leafname.data = [] ∨ leafname.data = ['.'] ∨
    leafname.data = ['.', '.'] ∨
    (excludes ≠ [] ∧ ∃ pat ∈ excludes, fnmatch pat leafname = true) ∨
    (excludes = [] ∧ (leafname.data.getLast? = some '~' ∨
      (4 < leafname.data.length ∧
        leafname.data.drop (leafname.data.length - 4)
          = ['.', 't', 'm', 'p']))))

/-- Claim C5, counterexample: the name ".tmp" has ".tmp" as its final four
characters, yet with no excludes configured ds_filename_valid accepts it,
because the source requires the name to be strictly longer than four
characters before comparing its tail (src/watch.c lines 953-955).  The
claim states every such name is rejected. -/
theorem filename_valid_tmp_counterexample_c5 :
    ds_filename_valid [] ".tmp" = true ∧ (".tmp").data.length = 4 := by
  constructor
  · rfl
  · rfl

/-- Claim C5 as amended: the filter rejects exactly the empty string, "."
and ".."; then, if the exclude list is non-empty, any name matching one of
the globs; otherwise any name ending in a tilde or any name of length at
least five whose final four characters are ".tmp". -/
theorem filename_valid_amended_c5 (excludes : List String)
    (leafname : String) :
    ds_filename_valid excludes leafname
      = !(filename_rejected_spec excludes leafname) := by
  unfold ds_filename_valid filename_rejected_spec
  by_cases h1 : leafname.data = []
  · simp [h1]
  · by_cases h2 : leafname.data = ['.']
    · simp [h1, h2]
    · by_cases h3 : leafname.data = ['.', '.']
      · simp [h1, h2, h3]
      · rcases hx : excludes with _ | ⟨p, ps⟩
        · simp only [hx, List.length_nil, lt_irrefl, if_false, h1, h2, h3,
            if_neg]
          by_cases h4 : leafname.data.getLast? = some '~'
          · simp [h1, h2, h3, h4]
          · by_cases h5 : 4 < leafname.data.length ∧
                leafname.data.drop (leafname.data.length - 4)
                  = ['.', 't', 'm', 'p']
            · simp [h1, h2, h3, h4, h5]
            · simp [h1, h2, h3, h4, h5]
        · simp only [hx, List.length_cons, Nat.succ_pos, if_pos, h1, h2, h3,
            if_neg]
          cases hany : (p :: ps).any fun pat => fnmatch pat leafname
          · simp only [List.any_eq_false] at hany
            simp [h1, h2, h3, hany]
            exact fun x hxm =>
              Bool.eq_false_iff.mpr (hany x (List.mem_cons_of_mem p hxm))
          · simp only [List.any_eq_true] at hany
            simp [h1, h2, h3, hany]
            intro hp
            rcases hany with ⟨x, hxm, hxt⟩
            rcases List.mem_cons.mp hxm with hxp | hxps
            · rw [hxp] at hxt
              rw [hxt] at hp
              cases hp
            · exact ⟨x, hxps, hxt⟩

/-- Add a path to the changed-paths list unless already present
(mark_path_changed, src/watch.c lines 1581-1635): directory paths get a
trailing slash, and a linear scan dedupes. -/
def mark_path_changed (changed : List String) (path : String)
    (isdir : Bool) : List String :=
  let savepath := path ++ (if isdir then "/" else "")
  if savepath ∈ changed then changed else changed ++ [savepath]

/-- Inotify event as process_file_change reads it (src/watch.c lines
1356-1459): the event name and the mask bits the function tests.  The
is-directory bit is tested by the caller process_inotify_events, which
routes directory events to process_dir_change instead. -/
structure FileEvent where
  name : String
  maskAttrib : Bool
  maskCreate : Bool
  maskModify : Bool
  maskMovedTo : Bool
  maskDelete : Bool
  maskMovedFrom : Bool
  deriving DecidableEq, Repr

/-- Action chosen by the event dispatcher (inotify_action_t, src/watch.c
lines 46-51). -/
inductive InAction where
  | create
  | update
  | delete
  | noAction
  deriving DecidableEq, Repr

/-- State of the event's directory that process_file_change touches: its
file list, the root's change queue, and the root's changed-paths list. -/
structure WatcherSt where
  files : List FileNode
  queue : Array ChangeEntry
  changedPaths : List String
  deriving DecidableEq, Repr

/-- Dispatch of one non-directory inotify event (process_file_change,
src/watch.c lines 1356-1459).  The known file is looked up by leafname;
attrib, create, modify and moved-to bits select create (unknown name) or
update (known name); delete and moved-from bits select delete for a known
name.  Create checks the filename filter and the lstat observation
(modeled by fsStat), then adds the file if new -- ds_file_add, src/watch.c
lines 445-530, returns the existing node when the leafname is already
present, and a calloc-zeroed node otherwise -- and queues a check for it
two seconds ahead.  Update queues a check.  Delete marks the parent
directory path changed and removes the file (ds_file_remove, src/watch.c
lines 539-586, which also clears the file's queue entries).  Only the
delete branch writes to the changed-paths list. -/
def process_file_change (excludes : List String) (now : Int)
    (freshId : Nat) (dirPath : String) (fsStat : Option StatInfo)
    (ev : FileEvent) (st : WatcherSt) : WatcherSt :=
  let found := st.files.find? fun f => f.leaf == ev.name
  let action : InAction :=
    if ev.maskAttrib || ev.maskCreate || ev.maskModify || ev.maskMovedTo then
      if found.isSome then .update else .create
    else if (ev.maskDelete || ev.maskMovedFrom) && found.isSome then .delete
    else .noAction
  match action with
  | .noAction => st
  | .create =>
    if ds_filename_valid excludes ev.name = false then st
    else
      match fsStat with
      | none => st
      | some sb =>
        if sb.isReg = false then st
        else
          match st.files.find? fun f => f.leaf == ev.name with
          | some f =>
              { st with queue :=
                  ds_change_queue_add st.queue (now + 2) (some f.id) none }
          | none =>
              let nf : FileNode :=
                ⟨freshId, ev.name,
                  (if dirPath = "" then ev.name
                    else dirPath ++ "/" ++ ev.name), 0, 0, false⟩
              { st with
                  files := st.files ++ [nf],
                  queue :=
                    ds_change_queue_add st.queue (now + 2) (some nf.id) none }
  | .update =>
      match found with
      | some f =>
          { st with queue :=
              ds_change_queue_add st.queue (now + 2) (some f.id) none }
      | none => st
  | .delete =>
      match found with
      | some f =>
          { files := st.files.filter fun g => ¬ (g.leaf == f.leaf),
            queue := cq_file_remove st.queue f.id,
            changedPaths := mark_path_changed st.changedPaths dirPath true }
      | none => st

/-- Helper: queue insertion either refuses (an entry for the target is
already present, or no target is given) or appends the new entry. -/
theorem ds_change_queue_add_cases (q : Array ChangeEntry) (w : Int)
    (fo d : Option Nat) :
    ds_change_queue_add q w fo d = q ∨
      ds_change_queue_add q w fo d = q.push ⟨w, fo, d⟩ := by
  unfold ds_change_queue_add
  split_ifs <;> simp

/-- Claim C4, counterexample: a create event for the new regular file "a"
in directory "d" (exclude list empty, so the name passes the filter, and
the observation is a regular file) adds the FileNode and queues a check,
but leaves the changed-paths list empty, whereas the claim states the
parent directory path is marked changed. -/
theorem file_create_no_mark_counterexample_c4 :
    (process_file_change [] 0 3 "d" (some ⟨true, 1, 2⟩)
        ⟨"a", false, true, false, false, false, false⟩
        ⟨[], #[], []⟩).changedPaths = [] ∧
    (process_file_change [] 0 3 "d" (some ⟨true, 1, 2⟩)
        ⟨"a", false, true, false, false, false, false⟩
        ⟨[], #[], []⟩).files = [⟨3, "a", "d/a", 0, 0, false⟩] ∧
    (process_file_change [] 0 3 "d" (some ⟨true, 1, 2⟩)
        ⟨"a", false, true, false, false, false, false⟩
        ⟨[], #[], []⟩).queue = #[⟨2, some 3, none⟩] := by
  exact ⟨rfl, rfl, rfl⟩

/-- Claim C4 as amended: for a create/modify event (no is-directory flag)
whose name passes the exclude filter and whose lstat observation is a
regular file, the dispatcher adds a FileNode if it is new and enqueues a
FileNode recheck (scheduled two seconds ahead, deduplicated against the
queue), but it does not touch the changed-paths set: the change is
reported later, when the queued recheck observes it. -/
theorem process_file_change_amended_c4 (excludes : List String) (now : Int)
    (freshId : Nat) (dirPath : String) (sb : StatInfo) (ev : FileEvent)
    (st : WatcherSt)
    (hmask : ev.maskAttrib = true ∨ ev.maskCreate = true ∨
      ev.maskModify = true ∨ ev.maskMovedTo = true)
    (hname : ds_filename_valid excludes ev.name = true)
    (hreg : sb.isReg = true) :
    (process_file_change excludes now freshId dirPath (some sb) ev
        st).changedPaths = st.changedPaths ∧
    ∃ f, f ∈ (process_file_change excludes now freshId dirPath (some sb) ev
        st).files ∧
      f.leaf = ev.name ∧
      ((process_file_change excludes now freshId dirPath (some sb) ev
          st).queue = st.queue ∨
        (process_file_change excludes now freshId dirPath (some sb) ev
          st).queue = st.queue.push ⟨now + 2, some f.id, none⟩) := by
  have hbool : (ev.maskAttrib || ev.maskCreate || ev.maskModify ||
      ev.maskMovedTo) = true := by
    rcases hmask with h | h | h | h <;> simp [h]
  rcases hfind : st.files.find? (fun f => f.leaf == ev.name) with _ | f
  · have hred : process_file_change excludes now freshId dirPath (some sb)
        ev st
        = { st with
            files := st.files ++ [⟨freshId, ev.name,
              (if dirPath = "" then ev.name else dirPath ++ "/" ++ ev.name),
              0, 0, false⟩],
            queue :=
              ds_change_queue_add st.queue (now + 2) (some freshId) none } := by
      unfold process_file_change
      simp [hfind, hbool, hname, hreg]
    rw [hred]
    refine ⟨rfl, ⟨freshId, ev.name,
      (if dirPath = "" then ev.name else dirPath ++ "/" ++ ev.name),
      0, 0, false⟩, ?_, rfl, ?_⟩
    · exact List.mem_append_right _ (List.mem_singleton_self _)
    · exact ds_change_queue_add_cases st.queue (now + 2) (some freshId) none
  · have hred : process_file_change excludes now freshId dirPath (some sb)
        ev st
        = { st with
            queue :=
              ds_change_queue_add st.queue (now + 2) (some f.id) none } := by
      unfold process_file_change
      simp [hfind, hbool]
    rw [hred]
    refine ⟨rfl, f, ?_, ?_, ?_⟩
    · exact List.mem_of_find?_eq_some hfind
    · have hp := List.find?_some hfind
      exact eq_of_beq hp
    · exact ds_change_queue_add_cases st.queue (now + 2) (some f.id) none

/-- Witness for claim C4's amended theorem: the create event of the
counterexample, with its hypotheses discharged concretely. -/
theorem process_file_change_amended_c4_witness :
    ds_filename_valid [] "a" = true ∧
    (⟨true, 1, 2⟩ : StatInfo).isReg = true ∧
    ((process_file_change [] 0 3 "d" (some ⟨true, 1, 2⟩)
        ⟨"a", false, true, false, false, false, false⟩
        ⟨[], #[], ["p"]⟩).changedPaths
      = (⟨[], #[], ["p"]⟩ : WatcherSt).changedPaths ∧
    ∃ f, f ∈ (process_file_change [] 0 3 "d" (some ⟨true, 1, 2⟩)
        ⟨"a", false, true, false, false, false, false⟩
        ⟨[], #[], ["p"]⟩).files ∧
      f.leaf = (⟨"a", false, true, false, false, false, false⟩ :
        FileEvent).name ∧
      ((process_file_change [] 0 3 "d" (some ⟨true, 1, 2⟩)
          ⟨"a", false, true, false, false, false, false⟩
          ⟨[], #[], ["p"]⟩).queue = (⟨[], #[], ["p"]⟩ : WatcherSt).queue ∨
        (process_file_change [] 0 3 "d" (some ⟨true, 1, 2⟩)
          ⟨"a", false, true, false, false, false, false⟩
          ⟨[], #[], ["p"]⟩).queue
          = (⟨[], #[], ["p"]⟩ : WatcherSt).queue.push
              ⟨0 + 2, some f.id, none⟩)) :=
  ⟨rfl, rfl,
    process_file_change_amended_c4 [] 0 3 "d" ⟨true, 1, 2⟩
      ⟨"a", false, true, false, false, false, false⟩ ⟨[], #[], ["p"]⟩
      (Or.inr (Or.inl rfl)) rfl rfl⟩

/-- Outcome flags for the file-system steps of one changed-paths dump:
whether the hidden temporary file could be created (ds_tmpfile), whether
it could be reopened as a stream (fdopen), and whether the rename into
place succeeded. -/
structure DumpEnv where
  tmpfileOk : Bool
  fdopenOk : Bool
  renameOk : Bool
  deriving DecidableEq, Repr

/-- Dump of the changed-paths list (dump_changed_paths, src/watch.c lines
1642-1709).  With no pending paths the function returns at once and no
file appears.  A failed temporary-file creation or stream open or rename
leaves no batch file (the temporary is removed) and keeps the list.  On
success the batch file holds exactly the listed paths and the list is
cleared.  The first component is the content of the batch file renamed
into place, if any; the second is the list afterwards. -/
def dump_changed_paths (env : DumpEnv) (changed : List String) :
    Option (List String) × List String :=
  if changed.length ≤ 0 then (none, changed)
  else if env.tmpfileOk = false then (none, changed)
  else if env.fdopenOk = false then (none, changed)
  else if env.renameOk = false then (none, changed)
  else (some changed, [])

/-- Claim C8: after a successful dump the in-memory changed-paths list is
empty, an immediately following dump (under any outcome environment)
writes no file, and a dump invoked with no pending paths writes no
file. -/
theorem dump_changed_paths_c8 (e1 e2 : DumpEnv) (ps out : List String)
    (h : (dump_changed_paths e1 ps).1 = some out) :
    (dump_changed_paths e1 ps).2 = [] ∧
    (dump_changed_paths e2 (dump_changed_paths e1 ps).2).1 = none ∧
    (dump_changed_paths e2 ([] : List String)).1 = none := by
  unfold dump_changed_paths at h ⊢
  split_ifs at h <;> simp_all

/-- Witness for claim C8 at a successful dump of one path. -/
theorem dump_changed_paths_c8_witness :
    (dump_changed_paths ⟨true, true, true⟩ ["a"]).1 = some ["a"] ∧
    ((dump_changed_paths ⟨true, true, true⟩ ["a"]).2 = [] ∧
      (dump_changed_paths ⟨false, true, true⟩
        (dump_changed_paths ⟨true, true, true⟩ ["a"]).2).1 = none ∧
      (dump_changed_paths ⟨false, true, true⟩ ([] : List String)).1
        = none) :=
  ⟨rfl, dump_changed_paths_c8 ⟨true, true, true⟩ ⟨false, true, true⟩
    ["a"] ["a"] rfl⟩

/-- Numeric configuration parameter together with its explicitly-set flag
(one unsigned-long field of struct sync_set_s and the matching flag of
its nested set struct, src/sync.h lines 28-57).  The header's comment
states the flags record which parameters were explicitly set in the
section, so that validation knows which ones to override from the
defaults section. -/
structure UlongParam where
  value : Nat
  set : Bool
  deriving DecidableEq, Repr

/-- The five numeric configuration keys handled by copy_default_ulong
(src/continual-sync.c lines 246-250).  The partial-sync keys are
abbreviated part here. -/
inductive NumKey where
  | fullInterval
  | fullRetry
  | partInterval
  | partRetry
  | recursionDepth
  deriving DecidableEq, Repr

/-- Numeric slice of one configuration section: the five unsigned-long
keys of struct sync_set_s with their set flags. -/
structure SyncSetNums where
  full_interval : UlongParam
  full_retry : UlongParam
  part_interval : UlongParam
  part_retry : UlongParam
  recursion_depth : UlongParam
  deriving DecidableEq, Repr

/-- Built-in values a freshly declared section starts from (parse_config,
src/continual-sync.c lines 409-415): the memset clears the set flags and
the five values are seeded with the built-in defaults. -/
def section_init : SyncSetNums :=
  ⟨⟨86400, false⟩, ⟨3600, false⟩, ⟨30, false⟩, ⟨300, false⟩, ⟨20, false⟩⟩

/-- Field selector of SyncSetNums by key. -/
def getParam (s : SyncSetNums) : NumKey → UlongParam
  | .fullInterval => s.full_interval
  | .fullRetry => s.full_retry
  | .partInterval => s.part_interval
  | .partRetry => s.part_retry
  | .recursionDepth => s.recursion_depth

/-- One numeric assignment line of a section (the cf_ulong macro,
src/continual-sync.c lines 565-570): the value is stored and the set flag
raised, whatever the value, including an explicit zero. -/
def apply_assign (s : SyncSetNums) : NumKey × Nat → SyncSetNums
  | (.fullInterval, v) => { s with full_interval := ⟨v, true⟩ }
  | (.fullRetry, v) => { s with full_retry := ⟨v, true⟩ }
  | (.partInterval, v) => { s with part_interval := ⟨v, true⟩ }
  | (.partRetry, v) => { s with part_retry := ⟨v, true⟩ }
  | (.recursionDepth, v) => { s with recursion_depth := ⟨v, true⟩ }

/-- Numeric lines of one section applied in file order over the built-in
start state (parse_config, src/continual-sync.c lines 577-581). -/
def parse_section_nums (lines : List (NumKey × Nat)) : SyncSetNums :=
  lines.foldl apply_assign section_init

/-- Inheritance of one numeric key from the defaults section
(copy_default_ulong, src/continual-sync.c lines 242-245): the value is
copied from the defaults section exactly when this section did not set
the key explicitly and the defaults section did; the stored value itself
is never consulted. -/
def copy_default_ulong (sec dflt : UlongParam) : UlongParam :=
  if sec.set = false ∧ dflt.set = true then { sec with value := dflt.value }
  else sec

/-- Numeric part of validate_config_section (src/continual-sync.c lines
246-250): each of the five keys inherits via copy_default_ulong. -/
def validate_config_section_nums (sec dflt : SyncSetNums) : SyncSetNums :=
  { full_interval :=
      copy_default_ulong sec.full_interval dflt.full_interval,
    full_retry := copy_default_ulong sec.full_retry dflt.full_retry,
    part_interval :=
      copy_default_ulong sec.part_interval dflt.part_interval,
    part_retry := copy_default_ulong sec.part_retry dflt.part_retry,
    recursion_depth :=
      copy_default_ulong sec.recursion_depth dflt.recursion_depth }

/-- Last value assigned to a key in a list of section lines, if any. -/
def lastAssign (k : NumKey) : List (NumKey × Nat) → Option Nat
  | [] => none
  | (k2, v) :: rest =>
    match lastAssign k rest with
    | some w => some w
    | none => if k2 = k then some v else none

/-- Helper: one assignment line changes exactly its own key. -/
theorem getParam_apply_assign (s : SyncSetNums) (k k2 : NumKey) (v : Nat) :
    getParam (apply_assign s (k2, v)) k
      = if k2 = k then ⟨v, true⟩ else getParam s k := by
  cases k <;> cases k2 <;> simp [apply_assign, getParam]

/-- Helper: the parsed value of a key is its last assignment, or the start
state's value when the key is never assigned. -/
theorem getParam_parse_foldl (k : NumKey) :
    ∀ (lines : List (NumKey × Nat)) (acc : SyncSetNums),
      getParam (lines.foldl apply_assign acc) k
        = match lastAssign k lines with
          | some v => ⟨v, true⟩
          | none => getParam acc k := by
  intro lines
  induction lines with
  | nil => intro acc; rfl
  | cons pr rest ih =>
    intro acc
    rcases pr with ⟨k2, v⟩
    rw [List.foldl_cons, ih]
    show _ = (match (match lastAssign k rest with
      | some w => some w
      | none => if k2 = k then some v else none) with
      | some v => (⟨v, true⟩ : UlongParam)
      | none => getParam acc k)
    rcases h : lastAssign k rest with _ | w
    · simp only [h]
      rw [getParam_apply_assign]
      by_cases hk : k2 = k
      · simp [hk]
      · simp [hk]
    · simp only [h]

/-- Claim C6, counterexample: a section whose file explicitly sets the
full sync interval to zero, against a defaults section setting it to 100.
The claim states a zero value inherits the defaults value 100; after
validation the code keeps the explicit zero, because the inheritance test
reads the explicitly-set flag (raised by the parser even for zero), never
the value (src/continual-sync.c lines 242-250, src/sync.h lines 45-57). -/
theorem numeric_default_counterexample_c6 :
    (getParam (validate_config_section_nums
        (parse_section_nums [(NumKey.fullInterval, 0)])
        (parse_section_nums [(NumKey.fullInterval, 100)]))
      NumKey.fullInterval).value = 0 ∧ (0 : Nat) ≠ 100 :=
  ⟨rfl, by decide⟩

/-- Claim C6 as amended: for every numeric key, after validation a key not
explicitly written in the section takes the defaults-section value when
the defaults section explicitly wrote that key, and otherwise keeps the
built-in default; a key explicitly written in the section keeps its
written value, even when that value is zero. -/
theorem numeric_default_amended_c6 (ls ld : List (NumKey × Nat))
    (k : NumKey) :
    (getParam (validate_config_section_nums (parse_section_nums ls)
        (parse_section_nums ld)) k).value
      = (lastAssign k ls).getD
          ((lastAssign k ld).getD (getParam section_init k).value) := by
  have hv : ∀ a b : SyncSetNums,
      getParam (validate_config_section_nums a b) k
        = copy_default_ulong (getParam a k) (getParam b k) := by
    intro a b
    cases k <;> rfl
  rw [hv]
  unfold parse_section_nums
  rw [getParam_parse_foldl, getParam_parse_foldl]
  have hinit : (getParam section_init k).set = false := by
    cases k <;> rfl
  rcases h1 : lastAssign k ls with _ | v <;>
    rcases h2 : lastAssign k ld with _ | w <;>
      simp [copy_default_ulong, hinit]

/-- Decoded result of the system call made by run_validation: the command
either exited with a status or was terminated by a signal. -/
inductive SysStatus where
  | exited (code : Nat)
  | signaled (sig : Nat)
  deriving DecidableEq, Repr

/-- Validation-command helper (run_validation, src/sync.c lines 582-620),
as a function of the configured command (none models a NULL command
pointer), the decoded result of running it, and the current value of the
global exit flag sync_exit_now.  Returns the C return value paired with
the flag afterwards: no command succeeds at once; signal termination
logs, raises the exit flag and fails; a non-zero exit status fails; a
zero exit status succeeds.  The status-file and log writes do not affect
the result. -/
def run_validation (command : Option String) (res : SysStatus)
    (exitNow : Bool) : Nat × Bool :=
  match command with
  | none => (0, exitNow)
  | some _ =>
    match res with
    | .signaled _ => (1, true)
    | .exited code => if code = 0 then (0, exitNow) else (1, exitNow)

/-- Claim C7: run_validation returns success when no command is configured
or the command exits with status zero, failure when it exits non-zero,
and on signal termination raises the worker's global exit flag and
returns failure. -/
theorem run_validation_c7 (cmd : String) (code sig : Nat) (flag : Bool)
    (res : SysStatus) (hc : code ≠ 0) :
    run_validation none res flag = (0, flag) ∧
    run_validation (some cmd) (SysStatus.exited 0) flag = (0, flag) ∧
    run_validation (some cmd) (SysStatus.exited code) flag = (1, flag) ∧
    run_validation (some cmd) (SysStatus.signaled sig) flag = (1, true) := by
  refine ⟨rfl, rfl, ?_, rfl⟩
  simp [run_validation, hc]

/-- Witness for claim C7 at concrete inputs. -/
theorem run_validation_c7_witness :
    (2 : Nat) ≠ 0 ∧
    (run_validation none (SysStatus.exited 0) false = (0, false) ∧
      run_validation (some "x") (SysStatus.exited 0) false = (0, false) ∧
      run_validation (some "x") (SysStatus.exited 2) false = (1, false) ∧
      run_validation (some "x") (SysStatus.signaled 15) false
        = (1, true)) :=
  ⟨by decide,
    run_validation_c7 "x" 2 15 false (SysStatus.exited 0) (by decide)⟩

/-- Maximum size of the exclude-pattern array of the standalone watcher
(MAX_EXCLUDES, src/watchdir.c line 13). -/
def MAX_EXCLUDES : Nat := 1000

/-- The -e option handling of the standalone watcher's parse_options
(src/watchdir.c lines 151-161), restricted to the exclude arguments of
one command line in order: each occurrence is refused with an error
(none) when exclude_count has already reached MAX_EXCLUDES - 1, and
otherwise appended to the array. -/
def watchdir_add_excludes : List String → List String → Option (List String)
  | [], acc => some acc
  | pat :: rest, acc =>
    if MAX_EXCLUDES - 1 ≤ acc.length then none
    else watchdir_add_excludes rest (acc ++ [pat])

/-- Exclude-option parsing over a whole command line, starting from the
empty exclude array. -/
def watchdir_parse_excludes (args : List String) : Option (List String) :=
  watchdir_add_excludes args []

/-- Helper: as long as the limit is not reached, every pattern is kept in
order. -/
theorem watchdir_add_le (args : List String) :
    ∀ acc : List String, acc.length + args.length ≤ MAX_EXCLUDES - 1 →
      watchdir_add_excludes args acc = some (acc ++ args) := by
  induction args with
  | nil =>
    intro acc _
    simp [watchdir_add_excludes]
  | cons p rest ih =>
    intro acc h
    simp only [List.length_cons] at h
    unfold watchdir_add_excludes
    rw [if_neg (by omega)]
    rw [ih (acc ++ [p]) (by simp; omega)]
    simp

/-- Helper: a command line pushing the count past the limit is refused. -/
theorem watchdir_add_overflow (args : List String) :
    ∀ acc : List String, acc.length ≤ MAX_EXCLUDES - 1 →
      MAX_EXCLUDES - 1 < acc.length + args.length →
      watchdir_add_excludes args acc = none := by
  induction args with
  | nil =>
    intro acc h1 h2
    exfalso
    simp only [List.length_nil, Nat.add_zero] at h2
    omega
  | cons p rest ih =>
    intro acc h1 h2
    simp only [List.length_cons] at h2
    unfold watchdir_add_excludes
    by_cases hc : MAX_EXCLUDES - 1 ≤ acc.length
    · rw [if_pos hc]
    · rw [if_neg hc]
      exact ih (acc ++ [p]) (by simp; omega) (by simp; omega)

/-- Claim C9, counterexample: a command line carrying exactly 1000 exclude
patterns is refused, although the claim states parsing succeeds for any
command line with 1000 or fewer exclude patterns.  The source's bound
check refuses the pattern that would make the count reach
MAX_EXCLUDES - 1 = 999 (src/watchdir.c line 152), so only 999 fit. -/
theorem excludes_limit_counterexample_c9 :
    watchdir_parse_excludes (List.replicate 1000 "x") = none ∧
    (List.replicate 1000 "x").length = 1000 := by
  constructor
  · refine watchdir_add_overflow (List.replicate 1000 "x") []
      (by decide) ?_
    rw [List.length_replicate]
    decide
  · rw [List.length_replicate]

/-- Claim C9 as amended: the standalone watcher accepts the -e option up
to 999 times; option parsing succeeds, keeping the patterns in order, for
any command line carrying at most 999 exclude patterns, and fails with an
error beyond that. -/
theorem excludes_limit_amended_c9 (args : List String) :
    watchdir_parse_excludes args
      = if args.length ≤ MAX_EXCLUDES - 1 then some args else none := by
  unfold watchdir_parse_excludes
  by_cases h : args.length ≤ MAX_EXCLUDES - 1
  · rw [if_pos h]
    have hle := watchdir_add_le args ([] : List String) (by simpa using h)
    simpa using hle
  · rw [if_neg h]
    exact watchdir_add_overflow args [] (by simp [MAX_EXCLUDES])
      (by simp; omega)

end ContinualSync
